import Mathlib

/-!
Verification development for a repository with two Python programs:

 * `enrich_exp_new.py` — a batch pipeline enriching expense records with
   geocoding, weather and currency-conversion data;
 * `weatherAPI_githubUser.py` — a small HTTP service with two proxy
   endpoints (weather by city, user profile by username).

The external HTTP world is modelled by oracles: each call to `safe_get`
(resp. each `httpx`/`requests` call in the service) has an outcome that is
either a transport/HTTP error string (any exception caught by the caller)
or a parsed JSON body.  JSON numbers are modelled as rationals; the scripts
only move them around or perform one division, so rationals are an exact
model of the arithmetic (what Python does in floating point, we do exactly).
-/

namespace Enrich

/-- Parsed JSON values.  Python `json` parses into `None`/`bool`/numbers/
`str`/`list`/`dict`; numbers are modelled as rationals. -/
inductive Json where
  | null : Json
  | bool (b : Bool) : Json
  | num (q : ℚ) : Json
  | str (s : String) : Json
  | arr (xs : List Json) : Json
  | obj (kvs : List (String × Json)) : Json

/-- Python truthiness of a parsed JSON value: `None`, `False`, `0`, `""`,
`[]`, `{}` are falsy, everything else truthy. -/
def Json.truthy : Json → Bool
  | .null => false
  | .bool b => b
  | .num q => q ≠ 0
  | .str s => s ≠ ""
  | .arr xs => !xs.isEmpty
  | .obj kvs => !kvs.isEmpty

/-- Raw dictionary lookup: `some v` when the value is a dict containing the
key (first occurrence), `none` otherwise.  (On a non-dict Python `[]`/`in`/
`.get` would raise; the well-formedness predicates below keep such
dynamically ill-typed responses out of the modelled domain.) -/
def Json.get : Json → String → Option Json
  | .obj kvs, k => (kvs.find? (fun kv => kv.1 = k)).map (fun kv => kv.2)
  | _, _ => none

/-- Python `dict.get(k)`: returns `None` both when the key is absent and
when its stored value is JSON `null` — the two are indistinguishable to the
caller, so the model collapses a stored `null` to `none`. -/
def Json.pyGet (j : Json) (k : String) : Option Json :=
  match j.get k with
  | some .null => none
  | r => r

/-- `k in data` for a dict (membership of the key, a `null` value counts as
present). -/
def Json.hasKey (j : Json) (k : String) : Bool :=
  (j.get k).isSome

/-- Truthiness of a Python value that is either `None` or a JSON value. -/
def truthyOpt : Option Json → Bool
  | none => false
  | some j => j.truthy

/-- Python `float(x)` on a JSON value, inside a `try`: `none` models a
raised-and-caught exception.  `float(True) = 1.0`, `float(False) = 0.0`.
(Numeric strings, which Python would coerce, are excluded from the modelled
domain by the FX well-formedness predicate.) -/
def pyFloat : Json → Option ℚ
  | .num q => some q
  | .bool b => some (if b then 1 else 0)
  | _ => none

mutual

/-- Rendering of a JSON value inside a Python f-string (used only to build
the FX failure message of `convert_fx_to_usd`).  The exact number
formatting of Python is abstracted (we print the rational); no claim
depends on the rendered text of this message. -/
def Json.pyRepr : Json → String
  | .null => "None"
  | .bool b => if b then "True" else "False"
  | .num q => toString q
  | .str s => "'" ++ s ++ "'"
  | .arr xs => "[" ++ pyReprArr xs ++ "]"
  | .obj kvs => "\x7b" ++ pyReprObj kvs ++ "\x7d"

def pyReprArr : List Json → String
  | [] => ""
  | [x] => x.pyRepr
  | x :: xs => x.pyRepr ++ ", " ++ pyReprArr xs

def pyReprObj : List (String × Json) → String
  | [] => ""
  | [kv] => "'" ++ kv.1 ++ "': " ++ kv.2.pyRepr
  | kv :: kvs => "'" ++ kv.1 ++ "': " ++ kv.2.pyRepr ++ ", " ++ pyReprObj kvs

end

/-- f-string rendering of an `Optional[str]`: Python prints `None` for the
absent case. -/
def optMsg : Option String → String
  | none => "None"
  | some s => s

def Json.isObj : Json → Bool
  | .obj _ => true
  | _ => false

def Json.isArr : Json → Bool
  | .arr _ => true
  | _ => false

/-!
## Batch pipeline (`enrich_exp_new.py`)

Each call to `safe_get` (lines 22-28) returns `(resp.json(), None)` on
success and `(None, str(e))` on any exception (connection error, timeout,
non-2xx status via `raise_for_status`, JSON decode failure).  Its outcome
is determined by the external service, so the model takes it as an oracle
value of type `Except String Json`: `.error e` is the caught-exception
case, `.ok data` the parsed body.
-/

/-- `geocode_city` (lines 32-40): on a `safe_get` error, propagate it;
otherwise `if not data or "results" not in data or not data["results"]`
fail with `"No geocode results"`; otherwise return the first result.  A
truthy list is non-empty, so the head exists; a truthy non-list `results`
would raise in Python (excluded by `wfGeoResp`). -/
def geocode_city (o : Except String Json) : Option Json × Option String :=
  match o with
  | .error e => (none, some e)
  | .ok data =>
      if !data.truthy || !data.hasKey "results" || !truthyOpt (data.get "results") then
        (none, some "No geocode results")
      else
        match data.get "results" with
        | some (.arr (x :: _)) => (some x, none)
        | _ => (none, some "No geocode results")

/-- `get_weather` (lines 42-48): on a `safe_get` error, propagate it;
otherwise return `data.get("current_weather")` WITH NO ERROR — even when
the key is absent, the step reports success with a missing payload. -/
def get_weather (o : Except String Json) : Option Json × Option String :=
  match o with
  | .error e => (none, some e)
  | .ok data => (data.pyGet "current_weather", none)

/-- `(data or {})` on the FX response body (line 60). -/
def fxData (data : Json) : Json :=
  if data.truthy then data else .obj []

/-- `result = (data or {}).get("result")` (line 60). -/
def fxResult (data : Json) : Option Json :=
  (fxData data).pyGet "result"

/-- `info = (data or {}).get("info", {}) or {}` (line 61). -/
def fxInfo (data : Json) : Json :=
  let info0 :=
    match (fxData data).get "info" with
    | none => Json.obj []
    | some v => v
  if info0.truthy then info0 else Json.obj []

/-- `rate = info.get("rate")` (line 62). -/
def fxExplicitRate (data : Json) : Option Json :=
  (fxInfo data).pyGet "rate"

/-- The rate after the derivation step (lines 64-68): when no explicit rate
is present but a converted amount is, try `rate = float(result)/float(amount)`;
a failed coercion or a zero amount raises inside the `try` and is swallowed
(`except: pass`), leaving the rate absent. -/
def fxRate (data : Json) (amount : ℚ) : Option Json :=
  match fxExplicitRate data, fxResult data with
  | none, some res =>
      match pyFloat res with
      | some q => if amount = 0 then none else some (.num (q / amount))
      | none => none
  | r, _ => r

/-- `convert_fx_to_usd` (lines 50-73): propagate a `safe_get` error;
otherwise fail with `f"FX conversion failed: {data}"` when
`result is None or rate is None` (line 70), and succeed with the dict
`{"fx_rate_to_usd": rate, "amount_usd": result}` otherwise. -/
def convert_fx_to_usd (o : Except String Json) (amount : ℚ) : Option Json × Option String :=
  match o with
  | .error e => (none, some e)
  | .ok data =>
      match fxResult data, fxRate data amount with
      | some res, some rt =>
          (some (.obj [("fx_rate_to_usd", rt), ("amount_usd", res)]), none)
      | _, _ => (none, some ("FX conversion failed: " ++ data.pyRepr))

/-- One input row of the batch pipeline (columns `city`, `country_code`,
`local_currency`, `amount`).  The amount is taken already parsed, as
`Decimal(row["amount"])` produces it; a malformed decimal crashes the
script (spec §9 leaves that case open) and is outside the model. -/
structure ExpenseRecord where
  city : String
  country_code : String
  local_currency : String
  amount : ℚ

/-- Oracle for the external world seen while processing one record: the
outcome each of the three `safe_get` calls would have if made, plus the
timestamp string `datetime.now(timezone.utc).isoformat()` would produce.
Whether the weather/FX outcomes are actually consulted is part of what the
theorems establish. -/
structure LookupOutcome where
  geo : Except String Json
  weather : Except String Json
  fx : Except String Json
  now : String

/-- One output row (main lines 121-134).  Optional fields hold the raw
JSON value stored in the row dict (`None` rendered as an empty CSV cell by
`csv.DictWriter`). -/
structure EnrichedRecord where
  city : String
  country_code : String
  local_currency : String
  amount : ℚ
  latitude : Option Json
  longitude : Option Json
  temperature_c : Option Json
  windspeed_m_s : Option Json
  fx_rate_to_usd : Option Json
  amount_usd : Option Json
  retrieved_at : String
  errors : String

/-- The geocode gate of main (line 106): `if not geo: ... continue`.  The
record is kept iff `geocode_city` produced a truthy payload; a
network/HTTP error, a missing/empty `results` list, and also a degenerate
falsy first result all make the gate skip the record. -/
def geoOk (g : Except String Json) : Bool :=
  truthyOpt (geocode_city g).1

/-- The enriched row built by main (lines 109-134) for a record that passed
the geocode gate: weather and FX are looked up, failures of either leave
their fields `None` and append `f"weather: {err}"` / `f"fx: {err}"`, and
the errors cell is `"; ".join(errors) if errors else ""`. -/
def emitRow (r : ExpenseRecord) (o : LookupOutcome) : EnrichedRecord :=
  let g := (geocode_city o.geo).1.getD .null
  let w := get_weather o.weather
  let f := convert_fx_to_usd o.fx r.amount
  let errs : List String :=
    (if !truthyOpt w.1 then ["weather: " ++ optMsg w.2] else []) ++
    (if !truthyOpt f.1 then ["fx: " ++ optMsg f.2] else [])
  { city := r.city
    country_code := r.country_code
    local_currency := r.local_currency
    amount := r.amount
    latitude := g.pyGet "latitude"
    longitude := g.pyGet "longitude"
    temperature_c := if truthyOpt w.1 then (w.1.getD .null).pyGet "temperature" else none
    windspeed_m_s := if truthyOpt w.1 then (w.1.getD .null).pyGet "windspeed" else none
    fx_rate_to_usd := if truthyOpt f.1 then (f.1.getD .null).pyGet "fx_rate_to_usd" else none
    amount_usd := if truthyOpt f.1 then (f.1.getD .null).pyGet "amount_usd" else none
    retrieved_at := o.now
    errors := if !errs.isEmpty then String.intercalate "; " errs else "" }

/-- Loop body of main for one record (lines 96-136): `none` when the
geocode gate hits `continue` (no row appended), `some row` otherwise. -/
def processRecord (r : ExpenseRecord) (o : LookupOutcome) : Option EnrichedRecord :=
  if geoOk o.geo then some (emitRow r o) else none

/-- The whole loop of main over the input rows, returning the list
`enriched_rows` (in loop order) together with the number of
`time.sleep(args.sleep)` pacing calls executed.  The sleep (line 136) sits
at the end of the loop body, AFTER the geocode gate's `continue` (line
108), so a skipped record executes no sleep. -/
def runPipeline : List (ExpenseRecord × LookupOutcome) → List EnrichedRecord × Nat
  | [] => ([], 0)
  | p :: rest =>
      match processRecord p.1 p.2 with
      | none => runPipeline rest
      | some row =>
          let tail := runPipeline rest
          (row :: tail.1, tail.2 + 1)

/-- Geocode responses on which the Python script would die with an
uncaught exception (a truthy non-dict body, a truthy non-list `results`,
a truthy non-dict first result — `data["results"][0]` / `geo.get(...)`
would raise on them) are dynamically ill-typed and outside the modelled
domain. -/
def wfGeoResp : Except String Json → Bool
  | .error _ => true
  | .ok data =>
      (!data.truthy || data.isObj) &&
      (match data.get "results" with
       | some r =>
           (!r.truthy || r.isArr) &&
           (match r with
            | .arr (x :: _) => !x.truthy || x.isObj
            | _ => true)
       | none => true)

/-- Weather responses whose parsed body is not a dict would make
`data.get("current_weather")` raise; a truthy non-dict `current_weather`
would make `weather.get("temperature")` raise.  Both are outside the
modelled domain. -/
def wfWeatherResp : Except String Json → Bool
  | .error _ => true
  | .ok data =>
      data.isObj &&
      (match data.get "current_weather" with
       | some cw => !cw.truthy || cw.isObj
       | none => true)

/-- FX responses: a truthy non-dict body or a truthy non-dict `info` would
raise on `.get`; a string-valued `result` is excluded because Python
`float(...)` coerces numeric strings, which the model does not mimic. -/
def wfFxResp : Except String Json → Bool
  | .error _ => true
  | .ok data =>
      (!data.truthy || data.isObj) &&
      (match (fxData data).get "info" with
       | some i => !i.truthy || i.isObj
       | none => true) &&
      (match fxResult data with
       | some (.str _) => false
       | _ => true)

/-- Dynamically well-typed outcome: the Python loop body runs it to
completion without an uncaught exception. -/
def wfOutcome (o : LookupOutcome) : Bool :=
  wfGeoResp o.geo && wfWeatherResp o.weather && wfFxResp o.fx

end Enrich

namespace Proxy

open Enrich

/-!
## Proxy service (`weatherAPI_githubUser.py`)

Each upstream HTTP call either raises a transport error
(`httpx.RequestError` / `requests.RequestException`, modelled as
`.error e` with the exception text) or yields a response with a status
code and a parsed JSON body.  (For the `requests` client a body that fails
to parse as JSON raises a `RequestException` subclass and is folded into
the `.error` case; for the `httpx` client an unparseable geocoding or
weather body would raise an uncaught `JSONDecodeError` and is outside the
modelled domain.)
-/

/-- An upstream HTTP response: status code plus parsed JSON body. -/
structure HttpResp where
  status : Nat
  body : Json

/-- What a FastAPI request handler does with a request: return a JSON
body, raise an `HTTPException`(status, detail), or raise an uncaught
exception (which FastAPI turns into a bare 500 `Internal Server Error`
carrying none of the handler's information). -/
inductive HandlerResult where
  | ok (body : Json)
  | httpError (status : Nat) (detail : String)
  | crash (msg : String)

/-- The `/get_weather/{city}` handler (`get_weather`, lines 17-68).
`geo` is the outcome of the geocoding call, `wx` the outcome the weather
call would have.  Branches in source order: geocoding transport error →
502; non-200 geocoding status → pass-through; falsy (e.g. empty-list)
geocoding body → 404 `"Invalid city name"`; then `geo_data[0]["lat"]`
/`["lon"]` (an ill-shaped body raises → `crash`); weather transport error
→ 502; non-200 weather status → pass-through; then
`weather_data["main"]["temp"]` and `["weather"][0]["description"]`
(ill-shaped → `crash`) assembled into the response body. -/
def get_weather_city (city : String) (geo : Except String HttpResp)
    (wx : Except String HttpResp) : HandlerResult :=
  match geo with
  | .error e => .httpError 502 ("Geo API unreachable: " ++ e)
  | .ok g =>
      if g.status ≠ 200 then .httpError g.status "Error fetching coordinates"
      else if !g.body.truthy then .httpError 404 "Invalid city name"
      else
        match g.body with
        | .arr (first :: _) =>
            match first.get "lat", first.get "lon" with
            | some _, some _ =>
                match wx with
                | .error e => .httpError 502 ("Weather API unreachable: " ++ e)
                | .ok w =>
                    if w.status ≠ 200 then .httpError w.status "Error fetching weather data"
                    else
                      match (w.body.get "main").bind (fun m => m.get "temp"),
                            w.body.get "weather" with
                      | some temp, some (.arr (d0 :: _)) =>
                          match d0.get "description" with
                          | some desc =>
                              .ok (.obj [("city", .str city), ("temperature", temp),
                                         ("weather_description", desc)])
                          | none => .crash "KeyError: description"
                      | _, _ => .crash "ill-shaped weather body"
            | _, _ => .crash "ill-shaped geocoding result"
        | _ => .crash "ill-shaped geocoding body"

/-- The `/get_github_user` handler (`get_github_user`, lines 69-91).
Branches: transport error (caught by `except requests.RequestException`)
→ 500 with the exception text; status 200 → build the profile subset with
`data.get(...)` (a non-dict body raises `AttributeError`, uncaught →
`crash`); 403 → 403 `"API rate limit exceeded"`; 404 → 404
`"User not found"`; ANY OTHER status falls through the `if/elif` chain
without binding `data`, so `return {... data.get(...)}` raises an uncaught
`UnboundLocalError` → `crash`. -/
def get_github_user (resp : Except String HttpResp) : HandlerResult :=
  match resp with
  | .error e => .httpError 500 ("External API request failed: " ++ e)
  | .ok r =>
      if r.status = 200 then
        match r.body with
        | .obj _ =>
            .ok (.obj [("login", (r.body.get "login").getD .null),
                       ("name", (r.body.get "name").getD .null),
                       ("public_repos", (r.body.get "public_repos").getD .null),
                       ("followers", (r.body.get "followers").getD .null),
                       ("following", (r.body.get "following").getD .null)])
        | _ => .crash "AttributeError: response body is not a dict"
      else if r.status = 403 then .httpError 403 "API rate limit exceeded"
      else if r.status = 404 then .httpError 404 "User not found"
      else .crash "UnboundLocalError: local variable referenced before assignment"

end Proxy

/-! ## Helper lemmas shared by the claim theorems -/

namespace Enrich

theorem runPipeline_rows (l : List (ExpenseRecord × LookupOutcome)) :
    (runPipeline l).1 =
      (l.filter (fun p => geoOk p.2.geo)).map (fun p => emitRow p.1 p.2) := by
  induction l with
  | nil => rfl
  | cons p rest ih =>
      by_cases h : geoOk p.2.geo
      · simp [runPipeline, processRecord, h, ih, List.filter_cons]
      · simp [runPipeline, processRecord, h, ih, List.filter_cons]

theorem runPipeline_sleeps (l : List (ExpenseRecord × LookupOutcome)) :
    (runPipeline l).2 = (l.filter (fun p => geoOk p.2.geo)).length := by
  induction l with
  | nil => rfl
  | cons p rest ih =>
      by_cases h : geoOk p.2.geo
      · simp [runPipeline, processRecord, h, ih, List.filter_cons]
      · simp [runPipeline, processRecord, h, ih, List.filter_cons]

theorem intercalate_go_nil (acc s : String) : String.intercalate.go acc s [] = acc := rfl

theorem prefixed_ne_empty (a m : String) (ha : a.length ≠ 0) : a ++ m ≠ "" := by
  intro h
  have h2 := congrArg String.length h
  rw [String.length_append] at h2
  have h0 : ("" : String).length = 0 := rfl
  omega

theorem emitRow_weather_fail (r : ExpenseRecord) (o : LookupOutcome)
    (hw : truthyOpt (get_weather o.weather).1 = false) :
    (emitRow r o).temperature_c = none ∧ (emitRow r o).windspeed_m_s = none ∧
    ∃ rest, (emitRow r o).errors =
      "weather: " ++ optMsg (get_weather o.weather).2 ++ rest := by
  refine ⟨by simp [emitRow, hw], by simp [emitRow, hw], ?_⟩
  by_cases hf : truthyOpt (convert_fx_to_usd o.fx r.amount).1
  · exact ⟨"", by simp [emitRow, hw, hf, String.intercalate, intercalate_go_nil]⟩
  · refine ⟨"; " ++ ("fx: " ++ optMsg (convert_fx_to_usd o.fx r.amount).2), ?_⟩
    simp only [emitRow, hw, hf, Bool.not_false, Bool.not_true, if_true, if_false]
    simp [String.intercalate, String.intercalate.go, String.append_assoc]

theorem emitRow_fx_fail (r : ExpenseRecord) (o : LookupOutcome)
    (hf : truthyOpt (convert_fx_to_usd o.fx r.amount).1 = false) :
    (emitRow r o).fx_rate_to_usd = none ∧ (emitRow r o).amount_usd = none ∧
    ∃ pre, (emitRow r o).errors =
      pre ++ ("fx: " ++ optMsg (convert_fx_to_usd o.fx r.amount).2) := by
  refine ⟨by simp [emitRow, hf], by simp [emitRow, hf], ?_⟩
  by_cases hw : truthyOpt (get_weather o.weather).1
  · exact ⟨"", by simp [emitRow, hw, hf, String.intercalate, intercalate_go_nil]⟩
  · refine ⟨"weather: " ++ optMsg (get_weather o.weather).2 ++ "; ", ?_⟩
    simp only [emitRow, hw, hf, Bool.not_false, Bool.not_true, if_true, if_false]
    simp [String.intercalate, String.intercalate.go, String.append_assoc]

/-! ## Claims about the batch pipeline -/

/-- C1: for every input record and dynamically well-typed oracle outcome,
if the geocode step fails — network/HTTP error, malformed response
(including a degenerate falsy first result), or zero results, i.e. it
yields no truthy payload — then no enriched record is emitted for that
record and the weather/FX outcomes are never consulted (the result is the
same whatever they are); if the geocode step succeeds, exactly one
enriched record is emitted whatever the weather and FX outcomes are, with
a failed step's fields null and its error message appended to the errors
cell. -/
theorem geocode_gate_emission (r : ExpenseRecord) (o : LookupOutcome)
    (_hwf : wfOutcome o = true) :
    (geoOk o.geo = false →
      processRecord r o = none ∧
      ∀ w f n, processRecord r ⟨o.geo, w, f, n⟩ = none) ∧
    (geoOk o.geo = true →
      processRecord r o = some (emitRow r o) ∧
      (truthyOpt (get_weather o.weather).1 = false →
        (emitRow r o).temperature_c = none ∧ (emitRow r o).windspeed_m_s = none ∧
        ∃ rest, (emitRow r o).errors =
          "weather: " ++ optMsg (get_weather o.weather).2 ++ rest) ∧
      (truthyOpt (convert_fx_to_usd o.fx r.amount).1 = false →
        (emitRow r o).fx_rate_to_usd = none ∧ (emitRow r o).amount_usd = none ∧
        ∃ pre, (emitRow r o).errors =
          pre ++ ("fx: " ++ optMsg (convert_fx_to_usd o.fx r.amount).2))) := by
  constructor
  · intro h
    exact ⟨by simp [processRecord, h], fun w f n => by simp [processRecord, h]⟩
  · intro h
    exact ⟨by simp [processRecord, h],
           fun hw => emitRow_weather_fail r o hw,
           fun hf => emitRow_fx_fail r o hf⟩

def recW : ExpenseRecord := ⟨"Paris", "FR", "EUR", 10⟩

def geoBodyW : Json :=
  .obj [("results", .arr [.obj [("latitude", .num 48), ("longitude", .num 2)]])]

def weatherBodyW : Json :=
  .obj [("current_weather", .obj [("temperature", .num 18), ("windspeed", .num 3)])]

def fxBodyW : Json :=
  .obj [("result", .num 11), ("info", .obj [("rate", .num (11/10))])]

def outcomeFailW : LookupOutcome :=
  ⟨.error "connection timed out", .ok weatherBodyW, .ok fxBodyW, "t0"⟩

def outcomeOkW : LookupOutcome :=
  ⟨.ok geoBodyW, .ok weatherBodyW, .ok fxBodyW, "t1"⟩

theorem geocode_gate_emission_witness :
    processRecord recW outcomeFailW = none ∧
    processRecord recW outcomeOkW = some (emitRow recW outcomeOkW) := by
  exact ⟨((geocode_gate_emission recW outcomeFailW (by decide)).1 (by decide)).1,
         ((geocode_gate_emission recW outcomeOkW (by decide)).2 (by decide)).1⟩

/-- C2: for every input sequence and oracle outcomes (dynamically
well-typed, so the Python loop completes), the number of rows written is
at most the number of input rows, with equality iff no record's geocode
step failed. -/
theorem output_count_le_input (inputs : List (ExpenseRecord × LookupOutcome))
    (_hwf : ∀ p ∈ inputs, wfOutcome p.2 = true) :
    (runPipeline inputs).1.length ≤ inputs.length ∧
    ((runPipeline inputs).1.length = inputs.length ↔
      ∀ p ∈ inputs, geoOk p.2.geo = true) := by
  rw [runPipeline_rows, List.length_map]
  exact ⟨List.length_filter_le _ _, List.filter_length_eq_length⟩

theorem output_count_le_input_witness :
    (runPipeline [(recW, outcomeFailW), (recW, outcomeOkW)]).1.length ≤ 2 ∧
    ¬((runPipeline [(recW, outcomeFailW), (recW, outcomeOkW)]).1.length = 2) := by
  have h := output_count_le_input [(recW, outcomeFailW), (recW, outcomeOkW)]
    (by decide)
  refine ⟨h.1, fun hc => ?_⟩
  have := h.2.mp hc (recW, outcomeFailW) (by simp)
  exact absurd this (by decide)

/-- C3: whenever the FX response carries a converted amount (a number) but
no explicit rate, the effective rate is computed as
converted_amount / original_amount — exactly, in the rational model of the
floating-point division at line 66. -/
theorem fx_derived_rate (data : Json) (amount c : ℚ)
    (hres : fxResult data = some (.num c))
    (hrate : fxExplicitRate data = none)
    (hamt : amount ≠ 0) :
    convert_fx_to_usd (.ok data) amount =
      (some (.obj [("fx_rate_to_usd", .num (c / amount)), ("amount_usd", .num c)]),
       none) := by
  simp [convert_fx_to_usd, fxRate, hres, hrate, pyFloat, hamt]

def fxDeriveBody : Json := .obj [("result", .num 120)]

theorem fx_derived_rate_witness :
    fxResult fxDeriveBody = some (.num 120) ∧
    fxExplicitRate fxDeriveBody = none ∧
    (100 : ℚ) ≠ 0 ∧
    convert_fx_to_usd (.ok fxDeriveBody) 100 =
      (some (.obj [("fx_rate_to_usd", .num (6/5)), ("amount_usd", .num 120)]),
       none) ∧
    ((6 : ℚ)/5) = 1.2 := by
  refine ⟨rfl, rfl, by norm_num, ?_, by norm_num⟩
  have h := fx_derived_rate fxDeriveBody 100 120 rfl rfl (by norm_num)
  rw [show ((120 : ℚ)/100) = 6/5 by norm_num] at h
  exact h

/-- FX response carrying an explicit rate but no converted amount. -/
def fxRateOnlyBody : Json := .obj [("info", .obj [("rate", .num (6/5))])]

/-- C4 counterexample: the claim says a response from which either a
converted amount or a rate can be obtained is treated as success; this
response yields an explicit rate, yet `convert_fx_to_usd` reports an error
and no payload, because line 70 (`if result is None or rate is None`)
also demands the converted amount. -/
theorem fx_success_requires_result_cex :
    fxExplicitRate fxRateOnlyBody = some (.num (6/5)) ∧
    (convert_fx_to_usd (.ok fxRateOnlyBody) 100).1 = none ∧
    (convert_fx_to_usd (.ok fxRateOnlyBody) 100).2.isSome = true :=
  ⟨rfl, rfl, rfl⟩

/-- A rate is derivable from the response in the sense of lines 64-68: a
converted amount is present and floatable and the original amount is
nonzero (otherwise the division raises and the error is swallowed). -/
def fxDerivable (data : Json) (amount : ℚ) : Bool :=
  match fxResult data with
  | some res => (pyFloat res).isSome && decide (amount ≠ 0)
  | none => false

/-- Failure condition of the FX step as amended by the counterexample:
call failed, or converted amount missing, or rate neither explicit nor
derivable. -/
def fxFails (o : Except String Json) (amount : ℚ) : Bool :=
  match o with
  | .error _ => true
  | .ok data =>
      (fxResult data).isNone ||
        ((fxExplicitRate data).isNone && !fxDerivable data amount)

theorem convert_fx_truthy (o : Except String Json) (amount : ℚ) :
    truthyOpt (convert_fx_to_usd o amount).1 =
      (convert_fx_to_usd o amount).1.isSome := by
  match o with
  | .error e => rfl
  | .ok data =>
      rcases hres : fxResult data with _ | res <;>
        rcases hrate : fxRate data amount with _ | rt <;>
          simp [convert_fx_to_usd, hres, hrate, truthyOpt, Json.truthy]

/-- C4 (amended): the FX step returns an error — and the emitted record
gets null FX fields with an `fx:` message appended — iff the
currency-conversion call itself fails, or the response is missing a
converted amount, or it is missing both an explicit and a derivable rate.
A converted amount is required even when an explicit rate is present. -/
theorem fx_failure_iff (o : Except String Json) (amount : ℚ) :
    ((convert_fx_to_usd o amount).2.isSome = fxFails o amount) ∧
    ((convert_fx_to_usd o amount).1.isSome = !fxFails o amount) ∧
    (∀ (r : ExpenseRecord) (lo : LookupOutcome), lo.fx = o → r.amount = amount →
      fxFails o amount = true → geoOk lo.geo = true →
      ∃ row, processRecord r lo = some row ∧
        row.fx_rate_to_usd = none ∧ row.amount_usd = none ∧
        ∃ pre, row.errors = pre ++ ("fx: " ++ optMsg (convert_fx_to_usd o amount).2)) := by
  have hmain : ((convert_fx_to_usd o amount).2.isSome = fxFails o amount) ∧
      ((convert_fx_to_usd o amount).1.isSome = !fxFails o amount) := by
    match o with
    | .error e => exact ⟨rfl, rfl⟩
    | .ok data =>
        rcases hres : fxResult data with _ | res
        · rcases hexp : fxExplicitRate data with _ | er
          · constructor <;>
              simp [convert_fx_to_usd, fxRate, fxFails, fxDerivable, hres, hexp]
          · constructor <;>
              simp [convert_fx_to_usd, fxRate, fxFails, fxDerivable, hres, hexp]
        · rcases hexp : fxExplicitRate data with _ | er
          · rcases hfl : pyFloat res with _ | q
            · constructor <;>
                simp [convert_fx_to_usd, fxRate, fxFails, fxDerivable, hres, hexp, hfl]
            · by_cases hz : amount = 0
              · constructor <;>
                  simp [convert_fx_to_usd, fxRate, fxFails, fxDerivable,
                        hres, hexp, hfl, hz]
              · constructor <;>
                  simp [convert_fx_to_usd, fxRate, fxFails, fxDerivable,
                        hres, hexp, hfl, hz]
          · constructor <;>
              simp [convert_fx_to_usd, fxRate, fxFails, fxDerivable, hres, hexp]
  refine ⟨hmain.1, hmain.2, ?_⟩
  intro r lo hfx hamt hfail hgeo
  refine ⟨emitRow r lo, by simp [processRecord, hgeo], ?_⟩
  have h1 : (convert_fx_to_usd lo.fx r.amount).1.isSome = false := by
    rw [hfx, hamt, hmain.2, hfail]; rfl
  have h2 : truthyOpt (convert_fx_to_usd lo.fx r.amount).1 = false := by
    rw [convert_fx_truthy]; exact h1
  have h3 := emitRow_fx_fail r lo h2
  refine ⟨h3.1, h3.2.1, ?_⟩
  rcases h3.2.2 with ⟨pre, hp⟩
  exact ⟨pre, by rw [hp, hfx, hamt]⟩

def outcomeFxFailW : LookupOutcome :=
  ⟨.ok geoBodyW, .ok weatherBodyW, .error "boom", "t2"⟩

theorem fx_failure_iff_witness :
    ∃ row, processRecord recW outcomeFxFailW = some row ∧
      row.fx_rate_to_usd = none ∧ row.amount_usd = none ∧
      ∃ pre, row.errors =
        pre ++ ("fx: " ++ optMsg (convert_fx_to_usd (.error "boom") 10).2) :=
  (fx_failure_iff (.error "boom") 10).2.2 recW outcomeFxFailW rfl rfl rfl (by decide)

/-- C5 (code bug): the pacing sleep (line 136) sits after the geocode
gate's `continue` (line 108), so a record skipped by a geocode failure
triggers NO pacing delay: on a two-record input whose first record fails
geocoding, only one sleep is executed, although the spec — and the
`--sleep` help text, "Sleep between API calls (seconds)" — call for a
delay after every record including skipped ones. -/
theorem sleep_skipped_on_geocode_failure :
    (runPipeline [(recW, outcomeFailW), (recW, outcomeOkW)]).2 = 1 ∧
    [(recW, outcomeFailW), (recW, outcomeOkW)].length = 2 ∧
    geoOk outcomeFailW.geo = false :=
  ⟨rfl, rfl, rfl⟩

/-- C8: for every emitted record, the errors cell is the per-step messages
joined by `"; "`, empty when no step failed; when the weather step fails
(geocode necessarily succeeded for an emitted record) the cell is
non-empty and carries a weather-prefixed message. -/
theorem errors_field_join (r : ExpenseRecord) (o : LookupOutcome)
    (row : EnrichedRecord) (hrow : processRecord r o = some row) :
    (truthyOpt (get_weather o.weather).1 = true →
      truthyOpt (convert_fx_to_usd o.fx r.amount).1 = true → row.errors = "") ∧
    (truthyOpt (get_weather o.weather).1 = false →
      truthyOpt (convert_fx_to_usd o.fx r.amount).1 = true →
      row.errors = "weather: " ++ optMsg (get_weather o.weather).2) ∧
    (truthyOpt (get_weather o.weather).1 = true →
      truthyOpt (convert_fx_to_usd o.fx r.amount).1 = false →
      row.errors = "fx: " ++ optMsg (convert_fx_to_usd o.fx r.amount).2) ∧
    (truthyOpt (get_weather o.weather).1 = false →
      truthyOpt (convert_fx_to_usd o.fx r.amount).1 = false →
      row.errors = ("weather: " ++ optMsg (get_weather o.weather).2) ++ "; " ++
        ("fx: " ++ optMsg (convert_fx_to_usd o.fx r.amount).2)) ∧
    (truthyOpt (get_weather o.weather).1 = false →
      row.errors ≠ "" ∧ ∃ rest, row.errors = "weather: " ++ rest) := by
  have hrw : row = emitRow r o := by
    by_cases h : geoOk o.geo
    · simp only [processRecord, if_pos h] at hrow
      exact (Option.some.inj hrow).symm
    · simp [processRecord, h] at hrow
  subst hrw
  refine ⟨?_, ?_, ?_, ?_, ?_⟩
  · intro hw hf
    simp [emitRow, hw, hf]
  · intro hw hf
    simp [emitRow, hw, hf, String.intercalate, intercalate_go_nil]
  · intro hw hf
    simp [emitRow, hw, hf, String.intercalate, intercalate_go_nil]
  · intro hw hf
    simp only [emitRow, hw, hf, Bool.not_false, Bool.not_true, if_true, if_false]
    simp [String.intercalate, String.intercalate.go]
  · intro hw
    obtain ⟨-, -, rest, hrest⟩ := emitRow_weather_fail r o hw
    rw [hrest]
    constructor
    · rw [String.append_assoc]
      exact prefixed_ne_empty _ _ (by decide)
    · exact ⟨optMsg (get_weather o.weather).2 ++ rest, by rw [String.append_assoc]⟩

def outcomeWxFailW : LookupOutcome :=
  ⟨.ok geoBodyW, .error "timeout", .ok fxBodyW, "t3"⟩

theorem errors_field_join_witness :
    (emitRow recW outcomeWxFailW).errors = "weather: timeout" := by
  have h := (errors_field_join recW outcomeWxFailW (emitRow recW outcomeWxFailW)
    rfl).2.1 rfl rfl
  exact h.trans (by decide)

/-- C9: when the weather call returns HTTP success with a body carrying no
current-conditions object, `get_weather` reports success with a missing
payload and no error string, and the emitted record has null temperature
and windspeed and the literal text `"weather: None"` (the f-string
rendering of the absent error) in its errors cell. -/
theorem weather_none_error_text (r : ExpenseRecord) (o : LookupOutcome)
    (body : Json) (hwx : o.weather = .ok body) (_hobj : body.isObj = true)
    (hmiss : body.pyGet "current_weather" = none)
    (hgeo : geoOk o.geo = true) :
    get_weather o.weather = (none, none) ∧
    ∃ row, processRecord r o = some row ∧
      row.temperature_c = none ∧ row.windspeed_m_s = none ∧
      ∃ rest, row.errors = "weather: None" ++ rest := by
  have hgw : get_weather o.weather = (none, none) := by
    rw [hwx]; simp [get_weather, hmiss]
  refine ⟨hgw, emitRow r o, by simp [processRecord, hgeo], ?_⟩
  have hw : truthyOpt (get_weather o.weather).1 = false := by rw [hgw]; rfl
  obtain ⟨h1, h2, rest, hrest⟩ := emitRow_weather_fail r o hw
  refine ⟨h1, h2, rest, ?_⟩
  rw [hrest, hgw]
  congr 1

def weatherNoCurrentW : Json := .obj [("time", .str "noon")]

def outcomeWxMissW : LookupOutcome :=
  ⟨.ok geoBodyW, .ok weatherNoCurrentW, .ok fxBodyW, "t4"⟩

theorem weather_none_error_text_witness :
    get_weather outcomeWxMissW.weather = (none, none) ∧
    ∃ row, processRecord recW outcomeWxMissW = some row ∧
      row.temperature_c = none ∧ row.windspeed_m_s = none ∧
      ∃ rest, row.errors = "weather: None" ++ rest :=
  weather_none_error_text recW outcomeWxMissW weatherNoCurrentW rfl rfl rfl
    (by decide)

/-- C10: the pipeline preserves input order: the emitted rows are exactly
the geocode-successful inputs, in input order, and each emitted row's
original fields (city, country code, currency, amount) equal those of its
originating input record. -/
theorem output_order_preserved (inputs : List (ExpenseRecord × LookupOutcome))
    (_hwf : ∀ p ∈ inputs, wfOutcome p.2 = true) :
    (runPipeline inputs).1 =
      (inputs.filter (fun p => geoOk p.2.geo)).map (fun p => emitRow p.1 p.2) ∧
    ∀ (r : ExpenseRecord) (o : LookupOutcome),
      (emitRow r o).city = r.city ∧ (emitRow r o).country_code = r.country_code ∧
      (emitRow r o).local_currency = r.local_currency ∧
      (emitRow r o).amount = r.amount :=
  ⟨runPipeline_rows inputs, fun _r _o => ⟨rfl, rfl, rfl, rfl⟩⟩

theorem output_order_preserved_witness :
    (runPipeline [(recW, outcomeFailW), (recW, outcomeOkW)]).1 =
      ([(recW, outcomeFailW), (recW, outcomeOkW)].filter
        (fun p => geoOk p.2.geo)).map (fun p => emitRow p.1 p.2) :=
  (output_order_preserved [(recW, outcomeFailW), (recW, outcomeOkW)]
    (by decide)).1

end Enrich

/-! ## Claims about the proxy service -/

namespace Proxy

/-- C6: the weather-by-city endpoint's error mapping — geocoding transport
failure → 502 (service-unavailable class); non-success geocoding status →
pass-through; empty geocoding result list → 404 not-found; weather
transport failure → 502; non-success weather status → pass-through. -/
theorem weather_endpoint_error_mapping (city : String) :
    (∀ e wx, get_weather_city city (.error e) wx =
        .httpError 502 ("Geo API unreachable: " ++ e)) ∧
    (∀ s b wx, s ≠ 200 → get_weather_city city (.ok ⟨s, b⟩) wx =
        .httpError s "Error fetching coordinates") ∧
    (∀ wx, get_weather_city city (.ok ⟨200, .arr []⟩) wx =
        .httpError 404 "Invalid city name") ∧
    (∀ first rest e, (first.get "lat").isSome = true →
      (first.get "lon").isSome = true →
      get_weather_city city (.ok ⟨200, .arr (first :: rest)⟩) (.error e) =
        .httpError 502 ("Weather API unreachable: " ++ e)) ∧
    (∀ first rest s b, (first.get "lat").isSome = true →
      (first.get "lon").isSome = true → s ≠ 200 →
      get_weather_city city (.ok ⟨200, .arr (first :: rest)⟩) (.ok ⟨s, b⟩) =
        .httpError s "Error fetching weather data") := by
  refine ⟨fun e wx => rfl, ?_, fun wx => rfl, ?_, ?_⟩
  · intro s b wx h
    simp [get_weather_city, h]
  · intro first rest e hlat hlon
    obtain ⟨lat, hl⟩ := Option.isSome_iff_exists.mp hlat
    obtain ⟨lon, hn⟩ := Option.isSome_iff_exists.mp hlon
    simp [get_weather_city, hl, hn, Enrich.Json.truthy]
  · intro first rest s b hlat hlon hs
    obtain ⟨lat, hl⟩ := Option.isSome_iff_exists.mp hlat
    obtain ⟨lon, hn⟩ := Option.isSome_iff_exists.mp hlon
    simp [get_weather_city, hl, hn, hs, Enrich.Json.truthy]

def geoPointW : Enrich.Json := .obj [("lat", .num 51), ("lon", .num 0)]

theorem weather_endpoint_error_mapping_witness :
    get_weather_city "London" (.error "dns failure") (.ok ⟨200, .null⟩) =
      .httpError 502 ("Geo API unreachable: " ++ "dns failure") ∧
    get_weather_city "London" (.ok ⟨500, .null⟩) (.ok ⟨200, .null⟩) =
      .httpError 500 "Error fetching coordinates" ∧
    get_weather_city "London" (.ok ⟨200, .arr []⟩) (.ok ⟨200, .null⟩) =
      .httpError 404 "Invalid city name" ∧
    get_weather_city "London" (.ok ⟨200, .arr [geoPointW]⟩) (.error "reset") =
      .httpError 502 ("Weather API unreachable: " ++ "reset") ∧
    get_weather_city "London" (.ok ⟨200, .arr [geoPointW]⟩) (.ok ⟨503, .null⟩) =
      .httpError 503 "Error fetching weather data" := by
  have h := weather_endpoint_error_mapping "London"
  exact ⟨h.1 "dns failure" (.ok ⟨200, .null⟩),
         h.2.1 500 .null (.ok ⟨200, .null⟩) (by decide),
         h.2.2.1 (.ok ⟨200, .null⟩),
         h.2.2.2.1 geoPointW [] "reset" (by decide) (by decide),
         h.2.2.2.2 geoPointW [] 503 .null (by decide) (by decide) (by decide)⟩

/-- C7 (code bug): transport failures, 403 and 404 are mapped as the claim
says, but any other non-success upstream status (e.g. 500) falls through
the `if/elif` chain without binding `data`, so the handler raises an
uncaught `UnboundLocalError` — surfacing as FastAPI's generic internal
server error that does NOT include the underlying upstream error
message. -/
theorem github_user_unhandled_status :
    get_github_user (.error "connection refused") =
      .httpError 500 ("External API request failed: " ++ "connection refused") ∧
    get_github_user (.ok ⟨403, .obj []⟩) =
      .httpError 403 "API rate limit exceeded" ∧
    get_github_user (.ok ⟨404, .obj []⟩) =
      .httpError 404 "User not found" ∧
    get_github_user (.ok ⟨500, .obj []⟩) =
      .crash "UnboundLocalError: local variable referenced before assignment" :=
  ⟨rfl, rfl, rfl, rfl⟩

end Proxy
